import Mathlib

set_option autoImplicit false

/-!
Shallow embedding of `lambdasoc.periph.sdram.WritebackCache` (file
`lambdasoc/periph/sdram.py`): a direct-mapped write-back cache bridging a
Wishbone initiator bus to a LiteDRAM native port.  The synchronous circuit is
modelled as a deterministic step function on an explicit state record; the
combinational outputs of each cycle are a pure function of the current state
and the current cycle's inputs, exactly mirroring the `m.d.comb` assignments,
and the `m.d.sync` assignments give the next state.
-/

namespace WritebackCache

/-- FSM states of the cache controller (`with m.FSM()` in `WritebackCache.elaborate`). -/
inductive Fsm where
  | check
  | evict
  | refill
deriving DecidableEq, Repr

/-- Wishbone burst type extension (`wishbone.BurstTypeExt`: LINEAR, WRAP_4, WRAP_8, WRAP_16). -/
inductive Bte where
  | linear
  | wrap4
  | wrap8
  | wrap16
deriving DecidableEq, Repr

/-- Wishbone cycle type (`wishbone.CycleType`); the circuit only compares against INCR_BURST. -/
inductive Cti where
  | classic
  | constAddrBurst
  | incrBurst
  | endOfBurst
deriving DecidableEq, Repr

/-- Elaboration-time geometry, fixed by the constructor arguments:
`offsetBits = log2_int(ratio)`, `lineBits = log2_int(nb_lines)`,
`tagBits = len(intr_bus.adr) - lineBits - offsetBits`,
`dataWidth = intr_bus.data_width`, `selWidth = len(intr_bus.sel)
= data_width // granularity`. -/
structure Geom where
  offsetBits : Nat
  lineBits : Nat
  tagBits : Nat
  dataWidth : Nat
  selWidth : Nat
deriving Repr

/-- `ratio = dram_port.data_width // intr_bus.data_width`: bus words per cache line. -/
def Geom.lineWords (g : Geom) : Nat := 2 ^ g.offsetBits

/-- Backing-store data width in bits (`dram_port.data_width`). -/
def Geom.dramWidth (g : Geom) : Nat := g.lineWords * g.dataWidth

/-- Total initiator address width (`len(intr_bus.adr)`). -/
def Geom.addrWidth (g : Geom) : Nat := g.offsetBits + g.lineBits + g.tagBits

/-- Bit size of one data-memory write granule (`intr_bus.granularity`). -/
def Geom.granBits (g : Geom) : Nat := g.dataWidth / g.selWidth

/-- Width of the data-memory write-enable mask (`len(dat_wp.en)`). -/
def Geom.datWpBits (g : Geom) : Nat := g.lineWords * g.selWidth

/-- The `intr_adr` record: an initiator address split into offset/line/tag fields. -/
structure Adr where
  offset : Nat
  line : Nat
  tag : Nat
deriving DecidableEq, Repr

/-- `intr_adr.eq(self.intr_bus.adr)`: bit-slice decomposition of an address.
`offset` is bits `[0, offsetBits)`, `line` is bits `[offsetBits, offsetBits+lineBits)`
and `tag` is bits `[offsetBits+lineBits, addrWidth)`, written with `/` and `%` by
powers of two. -/
def intr_adr (g : Geom) (a : Nat) : Adr where
  offset := a % 2 ^ g.offsetBits
  line := a / 2 ^ g.offsetBits % 2 ^ g.lineBits
  tag := a / 2 ^ (g.offsetBits + g.lineBits) % 2 ^ g.tagBits

/-- Wrap-`k` increment: `intr_adr_next[:log2 k].eq(intr_adr[:log2 k] + 1)` and
`intr_adr_next[log2 k:].eq(intr_adr[log2 k:])`.  The low slice of `a` is `a % k`,
incremented and truncated back to the slice width, and the high slice `a / k` is
kept unchanged. -/
def wrapNext (k a : Nat) : Nat := (a % k + 1) % k + k * (a / k)

/-- `intr_adr_next`: burst continuation address, by `m.Switch(self.intr_bus.bte)`.
LINEAR adds 1 to the whole record (truncated to the record width); WRAP_4/8/16
increment only the low 2/3/4 bits. -/
def intr_adr_next (g : Geom) (bte : Bte) (a : Nat) : Nat :=
  match bte with
  | .linear => (a + 1) % 2 ^ g.addrWidth
  | .wrap4 => wrapNext 4 a
  | .wrap8 => wrapNext 8 a
  | .wrap16 => wrapNext 16 a

/-- `k` associated to each wrap mode (0 for LINEAR, which does not wrap). -/
def burstWrapSize : Bte → Nat
  | .linear => 0
  | .wrap4 => 4
  | .wrap8 => 8
  | .wrap16 => 16

/-- `Repl(w, n)` for a `width`-bit word `w`: `n` concatenated copies, LSB first. -/
def repl (w width : Nat) : Nat → Nat
  | 0 => 0
  | n + 1 => w % 2 ^ width + repl w width n * 2 ^ width

/-- Granular memory-write-port update over `units` granules of `gran` bits each:
granule `i` of the result is granule `i` of `new` when bit `i` of `en` is set,
else granule `i` of `old`. -/
def maskedWrite (gran en old new : Nat) : Nat → Nat
  | 0 => 0
  | u + 1 =>
    (if en % 2 = 1 then new % 2 ^ gran else old % 2 ^ gran)
      + maskedWrite gran (en / 2) (old / 2 ^ gran) (new / 2 ^ gran) u * 2 ^ gran

/-- One `tag_mem` entry, i.e. the layout of `tag_rp_data`/`tag_wp_data`. -/
structure TagLine where
  tag : Nat
  dirty : Bool
deriving DecidableEq, Repr

/-- Initiator-bus input signals sampled during one cycle. -/
structure BusIn where
  cyc : Bool
  stb : Bool
  we : Bool
  adr : Nat
  sel : Nat
  dat_w : Nat
  cti : Cti
  bte : Bte
deriving Repr

/-- Backing-store (LiteDRAM native port) input signals during one cycle. -/
structure DramIn where
  cmdReady : Bool
  wReady : Bool
  rValid : Bool
  rData : Nat
deriving Repr

/-- Registered (synchronous) state of the circuit: FSM state, the two memories,
the registered outputs of the two non-transparent read ports, the registered
transaction `intr_bus_r` (`cyc`, `stb`, `adr`), and the per-operation completion
flags `evict_done` and `refill_done`. -/
structure State where
  fsm : Fsm
  tagMem : Nat → TagLine
  datMem : Nat → Nat
  tagRp : TagLine
  datRp : Nat
  rCyc : Bool
  rStb : Bool
  rAdr : Nat
  evictCmd : Bool
  evictW : Bool
  refillCmd : Bool
  refillR : Bool

/-- Combinational outputs of one cycle: the initiator-bus outputs, the DRAM-port
outputs, and the internal memory-port controls (needed to state what gets read
and written). -/
structure Outputs where
  ack : Bool
  datR : Nat
  cmdValid : Bool
  cmdLast : Bool
  cmdWe : Bool
  cmdAddr : Nat
  wValid : Bool
  wWe : Nat
  wData : Nat
  rReady : Bool
  tagRpEn : Bool
  tagRpAddr : Nat
  datRpEn : Bool
  datRpAddr : Nat
  tagWpEn : Bool
  tagWpAddr : Nat
  tagWpTag : Nat
  tagWpDirty : Bool
  datWpEn : Nat
  datWpAddr : Nat
  datWpData : Nat
deriving DecidableEq, Repr

/-- The `m.d.comb` assignments of one cycle, as a function of the current state
and inputs.  Unassigned combinational signals keep their reset value (0/false),
per Amaranth semantics; the feedback reads of `self.intr_bus.ack` inside the
CHECK state (lines 142, 152, 173) use the value assigned at line 172. -/
def outputs (g : Geom) (s : State) (bi : BusIn) (di : DramIn) : Outputs :=
  match s.fsm with
  | .check =>
    let adr := intr_adr g bi.adr
    let adrNext := intr_adr g (intr_adr_next g bi.bte bi.adr)
    let hit := bi.cyc && bi.stb && (adr.tag == s.tagRp.tag)
    let ack := hit && s.rCyc && s.rStb
    let rpEn := bi.cyc && bi.stb && (!s.rCyc || !s.rStb || ack)
    let rpAddr := if bi.cyc && bi.stb then
        (if ack && (bi.cti == Cti.incrBurst) then adrNext.line else adr.line)
      else 0
    let wrHit := hit && (bi.we && ack)
    { ack := ack
      datR := s.datRp / 2 ^ (adr.offset * g.dataWidth) % 2 ^ g.dataWidth
      cmdValid := false
      cmdLast := false
      cmdWe := false
      cmdAddr := 0
      wValid := false
      wWe := 0
      wData := 0
      rReady := false
      tagRpEn := rpEn
      tagRpAddr := rpAddr
      datRpEn := rpEn
      datRpAddr := rpAddr
      tagWpEn := wrHit
      tagWpAddr := adr.line
      tagWpTag := adr.tag
      tagWpDirty := true
      datWpEn := if wrHit then bi.sel % 2 ^ g.selWidth * 2 ^ (adr.offset * g.selWidth) else 0
      datWpAddr := adr.line
      datWpData := repl bi.dat_w g.dataWidth g.lineWords }
  | .evict =>
    let adrR := intr_adr g s.rAdr
    { ack := false
      datR := 0
      cmdValid := !s.evictCmd
      cmdLast := false
      cmdWe := true
      cmdAddr := adrR.line + s.tagRp.tag * 2 ^ g.lineBits
      wValid := !s.evictW
      wWe := 2 ^ (g.dramWidth / 8) - 1
      wData := s.datRp
      rReady := false
      tagRpEn := false
      tagRpAddr := 0
      datRpEn := false
      datRpAddr := 0
      tagWpEn := false
      tagWpAddr := 0
      tagWpTag := 0
      tagWpDirty := false
      datWpEn := 0
      datWpAddr := 0
      datWpData := 0 }
  | .refill =>
    let adrR := intr_adr g s.rAdr
    let rAck := di.rValid && !s.refillR
    { ack := false
      datR := 0
      cmdValid := !s.refillCmd
      cmdLast := true
      cmdWe := false
      cmdAddr := adrR.line + adrR.tag * 2 ^ g.lineBits
      wValid := false
      wWe := 0
      wData := 0
      rReady := !s.refillR
      tagRpEn := false
      tagRpAddr := 0
      datRpEn := false
      datRpAddr := 0
      tagWpEn := rAck
      tagWpAddr := adrR.line
      tagWpTag := adrR.tag
      tagWpDirty := false
      datWpEn := if rAck then 2 ^ g.datWpBits - 1 else 0
      datWpAddr := adrR.line
      datWpData := di.rData }

/-- The `m.d.sync` assignments of one cycle: next state as a function of the
current state and inputs.  Memory writes land at the clock edge; the
non-transparent read ports capture the pre-write memory content when enabled and
hold their value otherwise (`transparent=False`, `en.reset = 0`).  In the CHECK
state the later miss-branch assignment to `intr_bus_r.cyc/stb` (lines 179-182)
overrides the unconditional one (lines 135-139).  In EVICT/REFILL the done-flag
clearing runs when both flags are set, in which case no handshake can fire
because the corresponding `valid`/`ready` is already deasserted. -/
def step (g : Geom) (s : State) (bi : BusIn) (di : DramIn) : State :=
  let o := outputs g s bi di
  let tagMem' := fun l =>
    if o.tagWpEn && (l == o.tagWpAddr) then TagLine.mk o.tagWpTag o.tagWpDirty else s.tagMem l
  let datMem' := fun l =>
    if !(o.datWpEn == 0) && (l == o.datWpAddr) then
      maskedWrite g.granBits o.datWpEn (s.datMem l) o.datWpData g.datWpBits
    else s.datMem l
  let tagRp' := if o.tagRpEn then s.tagMem o.tagRpAddr else s.tagRp
  let datRp' := if o.datRpEn then s.datMem o.datRpAddr else s.datRp
  match s.fsm with
  | .check =>
    let adr := intr_adr g bi.adr
    let miss := bi.cyc && bi.stb && !(adr.tag == s.tagRp.tag) && (s.rCyc && s.rStb)
    { fsm := if miss then (if s.tagRp.dirty then .evict else .refill) else .check
      tagMem := tagMem'
      datMem := datMem'
      tagRp := tagRp'
      datRp := datRp'
      rCyc := if miss then false else bi.cyc
      rStb := if miss then false else bi.stb
      rAdr := bi.adr
      evictCmd := s.evictCmd
      evictW := s.evictW
      refillCmd := s.refillCmd
      refillR := s.refillR }
  | .evict =>
    if s.evictCmd && s.evictW then
      { s with
        fsm := .refill
        tagMem := tagMem'
        datMem := datMem'
        tagRp := tagRp'
        datRp := datRp'
        evictCmd := false
        evictW := false }
    else
      { s with
        tagMem := tagMem'
        datMem := datMem'
        tagRp := tagRp'
        datRp := datRp'
        evictCmd := s.evictCmd || (o.cmdValid && di.cmdReady)
        evictW := s.evictW || (o.wValid && di.wReady) }
  | .refill =>
    if s.refillCmd && s.refillR then
      { s with
        fsm := .check
        tagMem := tagMem'
        datMem := datMem'
        tagRp := tagRp'
        datRp := datRp'
        refillCmd := false
        refillR := false }
    else
      { s with
        tagMem := tagMem'
        datMem := datMem'
        tagRp := tagRp'
        datRp := datRp'
        refillCmd := s.refillCmd || (o.cmdValid && di.cmdReady)
        refillR := s.refillR || (di.rValid && o.rReady) }

/-- One simulation cycle's worth of input signals. -/
structure CycleIn where
  bus : BusIn
  dram : DramIn

/-- States reached after each cycle of a simulation. -/
def runStates (g : Geom) (s : State) : List CycleIn → List State
  | [] => []
  | i :: rest =>
    let s' := step g s i.bus i.dram
    s' :: runStates g s' rest

/-- Combinational outputs observed during each cycle of a simulation. -/
def runOuts (g : Geom) (s : State) : List CycleIn → List Outputs
  | [] => []
  | i :: rest => outputs g s i.bus i.dram :: runOuts g (step g s i.bus i.dram) rest

/-- The single-in-flight invariant on the completion flags: in CHECK no
operation is in progress (all four `evict_done`/`refill_done` flags clear); in
EVICT the refill flags are clear; in REFILL the evict flags are clear.  It holds
in the reset state assumed by the formal harness (`Initial()` block, lines
239-246) and is preserved by every step. -/
def Inv (s : State) : Prop :=
  (s.fsm = Fsm.check → s.evictCmd = false ∧ s.evictW = false
    ∧ s.refillCmd = false ∧ s.refillR = false)
  ∧ (s.fsm = Fsm.evict → s.refillCmd = false ∧ s.refillR = false)
  ∧ (s.fsm = Fsm.refill → s.evictCmd = false ∧ s.evictW = false)

/-! ### Model of the constructor-time validation (`WritebackCache.__init__`) -/

/-- Modelled from the spec: `litedram.NativePort`, whose defining module
(`lambdasoc/cores/litedram.py`) is not present in the tree.  Per the spec
(sections 4.5 and 6) the backing-store port is an opaque bundle of
command/write/read channels characterized only by its address width and data
width; the spec places no constraint on the widths themselves. -/
structure NativePort where
  addr_width : Nat
  data_width : Nat

/-- Python `int.bit_length`, computed with an explicit fuel argument (the fuel
`n` always suffices since the argument at least halves at each step). -/
def bitLenAux : Nat → Nat → Nat
  | 0, _ => 0
  | fuel + 1, n => if n = 0 then 0 else bitLenAux fuel (n / 2) + 1

/-- Python `n.bit_length()`: the number of binary digits of `n` (0 for 0). -/
def bit_length (n : Nat) : Nat := bitLenAux n n

/-- `amaranth.utils.log2_int(n)` with the default `need_pow2=True`: returns 0
for `n = 0`, else `r = (n - 1).bit_length()` when `2 ** r == n`, and raises
`ValueError` otherwise (i.e. when `n` is not a power of two). -/
def log2_int (n : Nat) : Except String Nat :=
  if n = 0 then .ok 0
  else if 2 ^ bit_length (n - 1) = n then .ok (bit_length (n - 1))
  else .error "is not a power of 2"

/-- Total variant of `log2_int` giving the value it returns when it succeeds
(0 for 0, else the bit length of `n - 1`). -/
def log2val (n : Nat) : Nat := if n = 0 then 0 else bit_length (n - 1)

/-- The construction path of `WritebackCache.__init__` (lines 40-70) for integer
`size`/`data_width` arguments, in source order: the explicit `size`,
`data_width` and divisibility checks (lines 45-54); the `log2_int` of the
DRAM-to-bus width ratio at line 57, raising when the ratio is not a power of
two; the argument validation of the external `wishbone.Interface` constructor
at lines 56-61 (`amaranth_soc`: data width and, when given, granularity must be
one of 8, 16, 32, 64, with the granularity no greater than the data width),
included so that no error path between the repository's two `log2_int` call
sites is collapsed; the memory-map width computation at line 63, which divides
`data_width` by the raw local `granularity` parameter and therefore raises
`TypeError` whenever `granularity` is left at its default `None` — so
construction never completes without an explicit granularity (the only
successful construction in the tests, `test_spec_simple`, passes
`granularity=8`) — and otherwise calls `log2_int(data_width // granularity)`;
and the `MemoryMap` constructor's requirement (line 62) that the resulting
address width be positive.  The `memory_map` setter at line 70 re-checks the
same quantities and adds no further error condition.  On success the
initiator-bus address width and the cache size are returned. -/
def writebackCacheInit (dram_port : NativePort) (size data_width : Int)
    (granularity : Option Int) : Except String (Nat × Nat) :=
  if ¬(0 < size ∧ size.toNat &&& (size.toNat - 1) = 0) then
    .error "Cache size must be a positive power of two integer"
  else if ¬(0 < data_width ∧ data_width.toNat &&& (data_width.toNat - 1) = 0) then
    .error "Data width must be a positive power of two integer"
  else if dram_port.data_width % data_width.toNat ≠ 0 then
    .error "DRAM port data width must be a multiple of data width"
  else
    match log2_int (dram_port.data_width / data_width.toNat) with
    | .error e => .error e
    | .ok k1 =>
      if ¬(data_width = 8 ∨ data_width = 16 ∨ data_width = 32 ∨ data_width = 64) then
        .error "Data width must be one of 8, 16, 32, 64"
      else
        match granularity with
        | none => .error "TypeError: unsupported operand types for floor division"
        | some g =>
          if ¬(g = 8 ∨ g = 16 ∨ g = 32 ∨ g = 64) then
            .error "Granularity must be one of 8, 16, 32, 64"
          else if data_width < g then
            .error "Granularity may not be greater than data width"
          else
            match log2_int (data_width.toNat / g.toNat) with
            | .error e => .error e
            | .ok k2 =>
              if dram_port.addr_width + k1 + k2 = 0 then
                .error "Address width must be a positive integer"
              else .ok (dram_port.addr_width + k1, size.toNat)

/-- Whether construction completes without raising. -/
def initOk (dram_port : NativePort) (size data_width : Int)
    (granularity : Option Int) : Bool :=
  match writebackCacheInit dram_port size data_width granularity with
  | .ok _ => true
  | .error _ => false

/-! ### Concrete sample configurations used by scenario proofs and witnesses -/

/-- A small concrete geometry: ratio 2 (32-bit backing store over a 16-bit bus),
8 cache lines, 2 tag bits, granularity 8 (two `sel` bits). -/
def g6 : Geom :=
  { offsetBits := 1, lineBits := 3, tagBits := 2, dataWidth := 16, selWidth := 2 }

/-- Cold cache state of scenario B: CHECK state, every line clean with the
all-ones tag, no registered transaction, all completion flags clear. -/
def coldClean : State where
  fsm := .check
  tagMem := fun _ => ⟨3, false⟩
  datMem := fun _ => 0
  tagRp := ⟨0, false⟩
  datRp := 0
  rCyc := false
  rStb := false
  rAdr := 0
  evictCmd := false
  evictW := false
  refillCmd := false
  refillR := false

/-- A classic (non-burst) read of address 0x00, held asserted. -/
def busRead0 : BusIn :=
  { cyc := true, stb := true, we := false, adr := 0, sel := 3, dat_w := 0,
    cti := .classic, bte := .linear }

/-- Idle bus: `cyc` and `stb` deasserted (address lines still carry 16). -/
def busIdle : BusIn :=
  { cyc := false, stb := false, we := false, adr := 16, sel := 0, dat_w := 0,
    cti := .classic, bte := .linear }

/-- Backing store idle: nothing ready, no read data. -/
def dramIdle : DramIn := { cmdReady := false, wReady := false, rValid := false, rData := 0 }

/-- Backing store accepting the command and returning read data 0x56781234. -/
def dramServe : DramIn := { cmdReady := true, wReady := false, rValid := true, rData := 0x56781234 }

/-- Six cycles of scenario B: the bus holds a read of 0x00 while the backing
store serves the refill (command accepted and read data returned in cycle 2). -/
def scenarioB : List CycleIn :=
  [⟨busRead0, dramIdle⟩, ⟨busRead0, dramIdle⟩, ⟨busRead0, dramServe⟩,
   ⟨busRead0, dramIdle⟩, ⟨busRead0, dramIdle⟩, ⟨busRead0, dramIdle⟩]

/-- CHECK-state snapshot in which the registered transaction (address 16, whose
tag is 1) is active and its tag matches the tag just read from the tag memory,
while the current bus inputs are idle. -/
def hitIdleState : State where
  fsm := .check
  tagMem := fun _ => ⟨1, false⟩
  datMem := fun _ => 0
  tagRp := ⟨1, false⟩
  datRp := 0
  rCyc := true
  rStb := true
  rAdr := 16
  evictCmd := false
  evictW := false
  refillCmd := false
  refillR := false

/-- CHECK-state snapshot in which the registered transaction (address 16, whose
tag is 1) is active and the tag just read is a different tag (2) with the dirty
bit set, while the current bus inputs are idle. -/
def missIdleState : State where
  fsm := .check
  tagMem := fun _ => ⟨2, true⟩
  datMem := fun _ => 0
  tagRp := ⟨2, true⟩
  datRp := 0
  rCyc := true
  rStb := true
  rAdr := 16
  evictCmd := false
  evictW := false
  refillCmd := false
  refillR := false

/-- EVICT-state snapshot: the dirty victim (old tag 2) of the line of registered
address 20 is about to be written back; no handshake has completed yet. -/
def evictSample : State where
  fsm := .evict
  tagMem := fun _ => ⟨2, true⟩
  datMem := fun _ => 0xABCD1234
  tagRp := ⟨2, true⟩
  datRp := 0xABCD1234
  rCyc := false
  rStb := false
  rAdr := 20
  evictCmd := false
  evictW := false
  refillCmd := false
  refillR := false

/-- REFILL-state snapshot: the line of registered address 20 is being refilled;
no handshake has completed yet. -/
def refillSample : State where
  fsm := .refill
  tagMem := fun _ => ⟨2, false⟩
  datMem := fun _ => 0
  tagRp := ⟨2, false⟩
  datRp := 0
  rCyc := false
  rStb := false
  rAdr := 20
  evictCmd := false
  evictW := false
  refillCmd := false
  refillR := false

end WritebackCache

namespace WritebackCache

/-! ### Arithmetic facts about the wrap-burst increment -/

theorem wrapNext_mod (k a : Nat) : wrapNext k a % k = (a + 1) % k := by
  unfold wrapNext
  rw [Nat.add_mul_mod_self_left, Nat.mod_mod_of_dvd _ dvd_rfl, Nat.mod_add_mod]

theorem wrapNext_div (k a : Nat) (hk : 0 < k) : wrapNext k a / k = a / k := by
  unfold wrapNext
  rw [Nat.add_mul_div_left _ _ hk, Nat.div_eq_of_lt (Nat.mod_lt _ hk), Nat.zero_add]

theorem wrapNext_iterate (k a : Nat) (hk : 0 < k) :
    ∀ i, (wrapNext k)^[i] a = (a + i) % k + k * (a / k) := by
  intro i
  induction i with
  | zero => simp [Nat.mod_add_div]
  | succ i ih =>
    rw [Function.iterate_succ_apply', ih]
    unfold wrapNext
    rw [Nat.add_mul_mod_self_left, Nat.mod_mod_of_dvd _ dvd_rfl, Nat.mod_add_mod,
      Nat.add_mul_div_left _ _ hk, Nat.div_eq_of_lt (Nat.mod_lt _ hk), Nat.zero_add,
      Nat.add_assoc]

theorem wrapNext_iterate_mod (k a i : Nat) (hk : 0 < k) :
    (wrapNext k)^[i] a % k = (a + i) % k := by
  rw [wrapNext_iterate k a hk i, Nat.add_mul_mod_self_left, Nat.mod_mod_of_dvd _ dvd_rfl]

theorem wrapNext_cycle (k a : Nat) (hk : 0 < k) : (wrapNext k)^[k] a = a := by
  rw [wrapNext_iterate k a hk k, Nat.add_mod_right, Nat.mod_add_div]

theorem add_mod_inj {k a i j : Nat} (hi : i < k) (hj : j < k)
    (h : (a + i) % k = (a + j) % k) : i = j := by
  have h2 : Nat.ModEq k (a + i) (a + j) := h
  have h3 : Nat.ModEq k i j := Nat.ModEq.add_left_cancel' a h2
  have h4 : i % k = j % k := h3
  rwa [Nat.mod_eq_of_lt hi, Nat.mod_eq_of_lt hj] at h4

/-- C7: for every address and every wrap-k burst mode (k in 4, 8, 16), the burst
next-address function increments only the low log2(k) address bits modulo k and
leaves all higher bits unchanged (the value mod k advances by 1, the value div k
is fixed); iterating it k times returns exactly to the starting address, and the
k iterates have pairwise-distinct values of the low log2(k) bits; in LINEAR mode
the full address is incremented by 1 with carry (mod the address width). -/
theorem burst_wrap_spec (g : Geom) (b : Bte) (hb : b ≠ Bte.linear) :
    (burstWrapSize b = 4 ∨ burstWrapSize b = 8 ∨ burstWrapSize b = 16)
    ∧ (∀ a, intr_adr_next g b a % burstWrapSize b = (a + 1) % burstWrapSize b)
    ∧ (∀ a, intr_adr_next g b a / burstWrapSize b = a / burstWrapSize b)
    ∧ (∀ a, (intr_adr_next g b)^[burstWrapSize b] a = a)
    ∧ (∀ a i j, i < burstWrapSize b → j < burstWrapSize b → i ≠ j →
        (intr_adr_next g b)^[i] a % burstWrapSize b
          ≠ (intr_adr_next g b)^[j] a % burstWrapSize b)
    ∧ (∀ a, intr_adr_next g Bte.linear a = (a + 1) % 2 ^ g.addrWidth) := by
  have hlin : ∀ a, intr_adr_next g Bte.linear a = (a + 1) % 2 ^ g.addrWidth := fun a => rfl
  cases b with
  | linear => exact absurd rfl hb
  | wrap4 =>
    have he : intr_adr_next g Bte.wrap4 = wrapNext 4 := rfl
    refine ⟨Or.inl rfl, ?_, ?_, ?_, ?_, hlin⟩
    · intro a; rw [he, burstWrapSize]; exact wrapNext_mod 4 a
    · intro a; rw [he, burstWrapSize]; exact wrapNext_div 4 a (by omega)
    · intro a; rw [he, burstWrapSize]; exact wrapNext_cycle 4 a (by omega)
    · intro a i j hi hj hij h
      rw [he, burstWrapSize] at *
      rw [wrapNext_iterate_mod 4 a i (by omega), wrapNext_iterate_mod 4 a j (by omega)] at h
      exact hij (add_mod_inj hi hj h)
  | wrap8 =>
    have he : intr_adr_next g Bte.wrap8 = wrapNext 8 := rfl
    refine ⟨Or.inr (Or.inl rfl), ?_, ?_, ?_, ?_, hlin⟩
    · intro a; rw [he, burstWrapSize]; exact wrapNext_mod 8 a
    · intro a; rw [he, burstWrapSize]; exact wrapNext_div 8 a (by omega)
    · intro a; rw [he, burstWrapSize]; exact wrapNext_cycle 8 a (by omega)
    · intro a i j hi hj hij h
      rw [he, burstWrapSize] at *
      rw [wrapNext_iterate_mod 8 a i (by omega), wrapNext_iterate_mod 8 a j (by omega)] at h
      exact hij (add_mod_inj hi hj h)
  | wrap16 =>
    have he : intr_adr_next g Bte.wrap16 = wrapNext 16 := rfl
    refine ⟨Or.inr (Or.inr rfl), ?_, ?_, ?_, ?_, hlin⟩
    · intro a; rw [he, burstWrapSize]; exact wrapNext_mod 16 a
    · intro a; rw [he, burstWrapSize]; exact wrapNext_div 16 a (by omega)
    · intro a; rw [he, burstWrapSize]; exact wrapNext_cycle 16 a (by omega)
    · intro a i j hi hj hij h
      rw [he, burstWrapSize] at *
      rw [wrapNext_iterate_mod 16 a i (by omega), wrapNext_iterate_mod 16 a j (by omega)] at h
      exact hij (add_mod_inj hi hj h)

end WritebackCache

namespace WritebackCache

/-- C8: the address decomposition is a pure function yielding
`offset` = bits `[0, offsetBits)`, `line` = bits `[offsetBits, offsetBits+lineBits)`
and `tag` = bits `[offsetBits+lineBits, addrWidth)` of the initiator address:
each field's bit `i` is the corresponding bit of the address (bitwise
characterization), and the three fields reassemble to the address modulo its
total width. -/
theorem intr_adr_bit_ranges (g : Geom) (a : Nat) :
    (∀ i, (intr_adr g a).offset.testBit i = (decide (i < g.offsetBits) && a.testBit i))
    ∧ (∀ i, (intr_adr g a).line.testBit i
        = (decide (i < g.lineBits) && a.testBit (g.offsetBits + i)))
    ∧ (∀ i, (intr_adr g a).tag.testBit i
        = (decide (i < g.tagBits) && a.testBit (g.offsetBits + g.lineBits + i)))
    ∧ (intr_adr g a).offset + 2 ^ g.offsetBits * (intr_adr g a).line
        + 2 ^ (g.offsetBits + g.lineBits) * (intr_adr g a).tag = a % 2 ^ g.addrWidth := by
  refine ⟨?_, ?_, ?_, ?_⟩
  · intro i
    exact Nat.testBit_mod_two_pow a g.offsetBits i
  · intro i
    show ((a / 2 ^ g.offsetBits) % 2 ^ g.lineBits).testBit i = _
    rw [Nat.testBit_mod_two_pow, ← Nat.shiftRight_eq_div_pow, Nat.testBit_shiftRight]
  · intro i
    show ((a / 2 ^ (g.offsetBits + g.lineBits)) % 2 ^ g.tagBits).testBit i = _
    rw [Nat.testBit_mod_two_pow, ← Nat.shiftRight_eq_div_pow, Nat.testBit_shiftRight]
  · show a % 2 ^ g.offsetBits
        + 2 ^ g.offsetBits * (a / 2 ^ g.offsetBits % 2 ^ g.lineBits)
        + 2 ^ (g.offsetBits + g.lineBits) * (a / 2 ^ (g.offsetBits + g.lineBits) % 2 ^ g.tagBits)
        = a % 2 ^ g.addrWidth
    have h1 : a % 2 ^ g.addrWidth
        = a % 2 ^ g.offsetBits + 2 ^ g.offsetBits * (a / 2 ^ g.offsetBits % 2 ^ (g.lineBits + g.tagBits)) := by
      rw [Geom.addrWidth, Nat.add_assoc, pow_add]
      exact Nat.mod_mul
    have h2 : a / 2 ^ g.offsetBits % 2 ^ (g.lineBits + g.tagBits)
        = a / 2 ^ g.offsetBits % 2 ^ g.lineBits
          + 2 ^ g.lineBits * (a / 2 ^ g.offsetBits / 2 ^ g.lineBits % 2 ^ g.tagBits) := by
      rw [pow_add]
      exact Nat.mod_mul
    have h3 : a / 2 ^ g.offsetBits / 2 ^ g.lineBits = a / 2 ^ (g.offsetBits + g.lineBits) := by
      rw [Nat.div_div_eq_div_mul, pow_add]
    rw [h1, h2, h3, Nat.mul_add, pow_add, Nat.mul_assoc, Nat.add_assoc]

/-- C10: the initiator-bus `ack` output is asserted only in the CHECK state; in
EVICT and REFILL (where `ack` receives no combinational assignment) it is 0, so
a missing transaction receives no acknowledgement until the machine has returned
to CHECK. -/
theorem ack_only_in_check (g : Geom) (s : State) (bi : BusIn) (di : DramIn)
    (h : s.fsm ≠ Fsm.check) : (outputs g s bi di).ack = false := by
  obtain ⟨f, tm, dm, trp, drp, rc, rs, ra, ec, ew, fc, fr⟩ := s
  cases f with
  | check => exact absurd rfl h
  | evict => rfl
  | refill => rfl

/-- C6: starting from a cold cache where every line is clean with the all-ones
tag, a read of address 0x00 goes through REFILL only (EVICT is never entered):
exactly one backing-store command is issued (cycle 2), with `write_enable = 0`;
the read stream completes once (`r.ready` asserted in cycle 2 against
`r.valid`); and the retried read is then acknowledged (cycle 5), returning the
refilled word. -/
theorem cold_read_refill_only :
    (runStates g6 coldClean scenarioB).map State.fsm
      = [.check, .refill, .refill, .check, .check, .check]
    ∧ (runOuts g6 coldClean scenarioB).map Outputs.cmdValid
      = [false, false, true, false, false, false]
    ∧ (runOuts g6 coldClean scenarioB).map Outputs.cmdWe
      = [false, false, false, false, false, false]
    ∧ (runOuts g6 coldClean scenarioB).map Outputs.rReady
      = [false, false, true, false, false, false]
    ∧ scenarioB.map (fun i => i.dram.rValid) = [false, false, true, false, false, false]
    ∧ (runOuts g6 coldClean scenarioB).map Outputs.ack
      = [false, false, false, false, false, true]
    ∧ (runOuts g6 coldClean scenarioB).map Outputs.datR = [0, 0, 0, 0, 0, 0x1234] := by
  decide

end WritebackCache

namespace WritebackCache

/-- A full-mask granular write replaces the whole word (truncated to the total
width `gran * u`). -/
theorem maskedWrite_full (gran : Nat) : ∀ (u old new : Nat),
    maskedWrite gran (2 ^ u - 1) old new u = new % 2 ^ (gran * u) := by
  intro u
  induction u with
  | zero => intro old new; simp [maskedWrite, Nat.mod_one]
  | succ u ih =>
    intro old new
    have h2 : 2 ^ (u + 1) = 2 * 2 ^ u := by rw [pow_succ]; ring
    have hpos : 0 < 2 ^ u := Nat.pos_pow_of_pos u (by omega)
    have hodd : (2 ^ (u + 1) - 1) % 2 = 1 := by omega
    have hdiv : (2 ^ (u + 1) - 1) / 2 = 2 ^ u - 1 := by omega
    show (if (2 ^ (u + 1) - 1) % 2 = 1 then new % 2 ^ gran else old % 2 ^ gran)
        + maskedWrite gran ((2 ^ (u + 1) - 1) / 2) (old / 2 ^ gran) (new / 2 ^ gran) u * 2 ^ gran
        = new % 2 ^ (gran * (u + 1))
    rw [hodd, hdiv, ih, if_pos rfl]
    have hsplit : new % 2 ^ (gran * (u + 1))
        = new % 2 ^ gran + 2 ^ gran * (new / 2 ^ gran % 2 ^ (gran * u)) := by
      have h3 : gran * (u + 1) = gran + gran * u := by ring
      rw [h3, pow_add]
      exact Nat.mod_mul
    rw [hsplit]
    ring

/-- C1: in the EVICT state the controller drives exactly one backing-store write
command, at address `Cat(registered line, old tag read from the tag memory)`
with `we = 1` and `last = 0`, and one write-data beat carrying the registered
full-line data (`dat_rp.data`, captured from the victim line during CHECK) with
every byte-enable bit set; `cmd.valid`/`w.valid` are deasserted as soon as the
corresponding completion flag is set, the flags latch the two handshakes
independently, the state moves to REFILL exactly when both flags are set, and
both flags are cleared on that exit — so the victim write is accepted by the
backing store before any REFILL command for the new tag can be driven. -/
theorem evict_single_writeback (g : Geom) (s : State) (bi : BusIn) (di : DramIn)
    (h : s.fsm = Fsm.evict) :
    (outputs g s bi di).cmdValid = !s.evictCmd
    ∧ (outputs g s bi di).cmdWe = true
    ∧ (outputs g s bi di).cmdLast = false
    ∧ (outputs g s bi di).cmdAddr
        = (intr_adr g s.rAdr).line + s.tagRp.tag * 2 ^ g.lineBits
    ∧ (outputs g s bi di).wValid = !s.evictW
    ∧ (outputs g s bi di).wWe = 2 ^ (g.dramWidth / 8) - 1
    ∧ (outputs g s bi di).wData = s.datRp
    ∧ (outputs g s bi di).rReady = false
    ∧ ((step g s bi di).fsm = Fsm.refill ↔ s.evictCmd = true ∧ s.evictW = true)
    ∧ ((step g s bi di).fsm = Fsm.refill →
        (step g s bi di).evictCmd = false ∧ (step g s bi di).evictW = false)
    ∧ ((step g s bi di).fsm = Fsm.evict →
        (step g s bi di).evictCmd = (s.evictCmd || (!s.evictCmd && di.cmdReady))
        ∧ (step g s bi di).evictW = (s.evictW || (!s.evictW && di.wReady)))
    ∧ ((step g s bi di).fsm = Fsm.evict ∨ (step g s bi di).fsm = Fsm.refill) := by
  obtain ⟨f, tm, dm, trp, drp, rc, rs, ra, ec, ew, fc, fr⟩ := s
  subst h
  cases ec <;> cases ew <;> simp [outputs, step]

/-- C1 witness: the EVICT command of the sample state carries `we = 1`. -/
theorem evict_single_writeback_wit :
    (outputs g6 evictSample busIdle dramIdle).cmdWe = true :=
  (evict_single_writeback g6 evictSample busIdle dramIdle rfl).2.1

/-- C2: in the REFILL state the controller drives exactly one backing-store read
command at address `Cat(registered line, registered tag)` with `we = 0` and
`last = 1`; on an accepted read-data beat it writes the full fetched line into
the data memory at the registered line and writes the entry
`(tag = registered tag, dirty = 0)` into the tag memory for that line; the
completion flags latch the command and read handshakes independently, and when
both are set the flags are cleared and the state returns to CHECK. -/
theorem refill_fetch_update (g : Geom) (s : State) (bi : BusIn) (di : DramIn)
    (h : s.fsm = Fsm.refill) (hsel : 0 < g.selWidth) (hdvd : g.selWidth ∣ g.dataWidth)
    (hdata : di.rData < 2 ^ g.dramWidth) :
    (outputs g s bi di).cmdValid = !s.refillCmd
    ∧ (outputs g s bi di).cmdWe = false
    ∧ (outputs g s bi di).cmdLast = true
    ∧ (outputs g s bi di).cmdAddr
        = (intr_adr g s.rAdr).line + (intr_adr g s.rAdr).tag * 2 ^ g.lineBits
    ∧ (outputs g s bi di).rReady = !s.refillR
    ∧ (outputs g s bi di).wValid = false
    ∧ (di.rValid = true → s.refillR = false →
        (step g s bi di).tagMem (intr_adr g s.rAdr).line
          = ⟨(intr_adr g s.rAdr).tag, false⟩
        ∧ (step g s bi di).datMem (intr_adr g s.rAdr).line = di.rData)
    ∧ ((step g s bi di).fsm = Fsm.check ↔ s.refillCmd = true ∧ s.refillR = true)
    ∧ ((step g s bi di).fsm = Fsm.check →
        (step g s bi di).refillCmd = false ∧ (step g s bi di).refillR = false)
    ∧ ((step g s bi di).fsm = Fsm.refill →
        (step g s bi di).refillCmd = (s.refillCmd || (!s.refillCmd && di.cmdReady))
        ∧ (step g s bi di).refillR = (s.refillR || (di.rValid && !s.refillR)))
    ∧ ((step g s bi di).fsm = Fsm.refill ∨ (step g s bi di).fsm = Fsm.check) := by
  have hbits : 0 < g.datWpBits := by
    rw [Geom.datWpBits, Geom.lineWords]
    exact Nat.mul_pos (Nat.pos_pow_of_pos _ (by omega)) hsel
  have hen : 2 ^ g.datWpBits - 1 ≠ 0 := by
    have h1 : 1 < 2 ^ g.datWpBits := Nat.one_lt_two_pow_iff.mpr (by omega)
    omega
  have hwid : g.granBits * g.datWpBits = g.dramWidth := by
    rw [Geom.granBits, Geom.datWpBits, Geom.dramWidth]
    have h1 : g.dataWidth / g.selWidth * (g.lineWords * g.selWidth)
        = g.lineWords * (g.dataWidth / g.selWidth * g.selWidth) := by ring
    rw [h1, Nat.div_mul_cancel hdvd]
  have hmod : di.rData % 2 ^ (g.granBits * g.datWpBits) = di.rData := by
    rw [hwid]
    exact Nat.mod_eq_of_lt hdata
  obtain ⟨f, tm, dm, trp, drp, rc, rs, ra, ec, ew, fc, fr⟩ := s
  subst h
  obtain ⟨cr, wr, rv, rd⟩ := di
  cases fc <;> cases fr <;> cases rv <;>
    simp [outputs, step, maskedWrite_full, hen, hmod] at *

/-- C2 witness: the REFILL command of the sample state carries `we = 0`. -/
theorem refill_fetch_update_wit :
    (outputs g6 refillSample busIdle dramServe).cmdWe = false :=
  (refill_fetch_update g6 refillSample busIdle dramServe rfl (by decide) (by decide)
    (by decide)).2.1

/-- C3 counterexample: in this CHECK state the previous cycle's registered
transaction is active and the registered address's tag (1) equals the tag just
read from the tag memory, so the claim asserts `ack`; but the circuit gates the
comparison and `ack` on the *current* bus inputs (`self.intr_bus.cyc/stb/adr`,
lines 170-172), which are idle here, and `ack` stays low. -/
theorem check_hit_registered_cex :
    ((intr_adr g6 hitIdleState.rAdr).tag = hitIdleState.tagRp.tag
      ∧ hitIdleState.rCyc = true ∧ hitIdleState.rStb = true
      ∧ hitIdleState.fsm = Fsm.check)
    ∧ (outputs g6 hitIdleState busIdle dramIdle).ack = false := by
  decide

/-- C3 (amended): in the CHECK state the hit decision compares the *current*
cycle's bus address's tag (`intr_adr.tag`) against the tag just read from the
tag memory; `ack` is asserted exactly when the current transaction is presented
(`cyc` and `stb`), this comparison matches, and the previous cycle's registered
transaction was active; and when the current transaction is a write, the tag
write-enable and the byte-masked data write-enable (the `sel` mask shifted to
the sub-word at `offset`), targeting the current line with a fresh
`dirty = 1` tag entry, are committed in that same cycle. -/
theorem check_hit_current (g : Geom) (s : State) (bi : BusIn) (di : DramIn)
    (h : s.fsm = Fsm.check) :
    (outputs g s bi di).ack
      = (bi.cyc && bi.stb && ((intr_adr g bi.adr).tag == s.tagRp.tag)
          && (s.rCyc && s.rStb))
    ∧ (outputs g s bi di).tagWpEn = ((outputs g s bi di).ack && bi.we)
    ∧ (outputs g s bi di).tagWpAddr = (intr_adr g bi.adr).line
    ∧ (outputs g s bi di).tagWpTag = (intr_adr g bi.adr).tag
    ∧ (outputs g s bi di).tagWpDirty = true
    ∧ (outputs g s bi di).datWpEn
      = (if (outputs g s bi di).ack && bi.we then
          bi.sel % 2 ^ g.selWidth * 2 ^ ((intr_adr g bi.adr).offset * g.selWidth) else 0)
    ∧ (outputs g s bi di).datWpAddr = (intr_adr g bi.adr).line := by
  obtain ⟨f, tm, dm, trp, drp, rc, rs, ra, ec, ew, fc, fr⟩ := s
  subst h
  obtain ⟨cyc, stb, we, adr, sel, dw, cti, bte⟩ := bi
  cases cyc <;> cases stb <;> cases we <;> cases rc <;> cases rs <;>
    cases hm : ((intr_adr g adr).tag == trp.tag) <;> simp [outputs, hm]

/-- C3 witness: the speculative tag write of the sample CHECK state marks the
line dirty. -/
theorem check_hit_current_wit :
    (outputs g6 hitIdleState busIdle dramIdle).tagWpDirty = true :=
  (check_hit_current g6 hitIdleState busIdle dramIdle rfl).2.2.2.2.1

/-- C4 counterexample: in this CHECK state the previous cycle's registered
transaction is active, the registered address's tag (1) differs from the tag
just read (2), and the dirty bit read for the line is set, so the claim requires
a transition to EVICT; but the circuit additionally requires the *current* bus
inputs to present the transaction (`self.intr_bus.cyc & self.intr_bus.stb`,
line 170) and compares the *current* address's tag, and with an idle bus it
stays in CHECK. -/
theorem check_miss_registered_cex :
    ((intr_adr g6 missIdleState.rAdr).tag ≠ missIdleState.tagRp.tag
      ∧ missIdleState.rCyc = true ∧ missIdleState.rStb = true
      ∧ missIdleState.tagRp.dirty = true ∧ missIdleState.fsm = Fsm.check)
    ∧ (step g6 missIdleState busIdle dramIdle).fsm = Fsm.check := by
  decide

/-- C4 (amended): the only transitions out of CHECK happen when the *current*
bus inputs present a transaction (`cyc` and `stb`) whose *current* address's tag
differs from the tag just read, while the previous cycle's registered
transaction was active; in that case the registered transaction is deasserted
and the machine moves to EVICT when the dirty bit just read is set, else
directly to REFILL; otherwise it stays in CHECK. -/
theorem check_miss_transitions (g : Geom) (s : State) (bi : BusIn) (di : DramIn)
    (h : s.fsm = Fsm.check) :
    ((step g s bi di).fsm = Fsm.evict
      ↔ (bi.cyc && bi.stb && !((intr_adr g bi.adr).tag == s.tagRp.tag)
          && (s.rCyc && s.rStb)) = true ∧ s.tagRp.dirty = true)
    ∧ ((step g s bi di).fsm = Fsm.refill
      ↔ (bi.cyc && bi.stb && !((intr_adr g bi.adr).tag == s.tagRp.tag)
          && (s.rCyc && s.rStb)) = true ∧ s.tagRp.dirty = false)
    ∧ ((step g s bi di).fsm = Fsm.check
      ↔ (bi.cyc && bi.stb && !((intr_adr g bi.adr).tag == s.tagRp.tag)
          && (s.rCyc && s.rStb)) = false)
    ∧ ((bi.cyc && bi.stb && !((intr_adr g bi.adr).tag == s.tagRp.tag)
          && (s.rCyc && s.rStb)) = true →
        (step g s bi di).rCyc = false ∧ (step g s bi di).rStb = false) := by
  obtain ⟨f, tm, dm, trp, drp, rc, rs, ra, ec, ew, fc, fr⟩ := s
  subst h
  obtain ⟨cyc, stb, we, adr, sel, dw, cti, bte⟩ := bi
  obtain ⟨t, d⟩ := trp
  cases cyc <;> cases stb <;> cases rc <;> cases rs <;> cases d <;>
    cases hm : ((intr_adr g adr).tag == t) <;> simp [step, hm]

/-- C4 witness: a presented transaction with a mismatching tag deasserts the
registered cycle flag. -/
theorem check_miss_transitions_wit :
    (step g6 missIdleState busRead0 dramIdle).rCyc = false :=
  ((check_miss_transitions g6 missIdleState busRead0 dramIdle rfl).2.2.2 (by decide)).1

/-- C5: the single-in-flight discipline.  The flag invariant `Inv` (CHECK: no
operation pending; EVICT: refill flags clear; REFILL: evict flags clear) is
preserved by every step; no backing-store command is driven in CHECK;
`cmd.we` is constantly 1 throughout EVICT and 0 throughout REFILL; `cmd.valid`
is only asserted while the current operation's own command handshake is still
outstanding (never while a previous stream is incomplete); and the FSM is in
exactly one of CHECK/EVICT/REFILL. -/
theorem single_inflight (g : Geom) (s : State) (bi : BusIn) (di : DramIn)
    (h : Inv s) :
    Inv (step g s bi di)
    ∧ (s.fsm = Fsm.check → (outputs g s bi di).cmdValid = false)
    ∧ (s.fsm = Fsm.evict → (outputs g s bi di).cmdWe = true
        ∧ ((outputs g s bi di).cmdValid = true → s.evictCmd = false))
    ∧ (s.fsm = Fsm.refill → (outputs g s bi di).cmdWe = false
        ∧ ((outputs g s bi di).cmdValid = true → s.refillCmd = false))
    ∧ (s.fsm = Fsm.check ∨ s.fsm = Fsm.evict ∨ s.fsm = Fsm.refill) := by
  obtain ⟨h1, h2, h3⟩ := h
  obtain ⟨f, tm, dm, trp, drp, rc, rs, ra, ec, ew, fc, fr⟩ := s
  cases f with
  | check =>
    obtain ⟨he1, he2, he3, he4⟩ := h1 rfl
    subst he1; subst he2; subst he3; subst he4
    refine ⟨?_, ?_, ?_, ?_, Or.inl rfl⟩ <;> simp [Inv, step, outputs]
  | evict =>
    obtain ⟨he3, he4⟩ := h2 rfl
    subst he3; subst he4
    refine ⟨?_, ?_, ?_, ?_, Or.inr (Or.inl rfl)⟩ <;>
      cases ec <;> cases ew <;> simp [Inv, step, outputs]
  | refill =>
    obtain ⟨he1, he2⟩ := h3 rfl
    subst he1; subst he2
    refine ⟨?_, ?_, ?_, ?_, Or.inr (Or.inr rfl)⟩ <;>
      cases fc <;> cases fr <;> simp [Inv, step, outputs]

/-- C5 witness: in the cold CHECK state no backing-store command is driven. -/
theorem single_inflight_wit :
    (outputs g6 coldClean busRead0 dramIdle).cmdValid = false :=
  (single_inflight g6 coldClean busRead0 dramIdle (by unfold Inv; decide)).2.1 rfl

/-- C7 witness: four wrap-4 burst steps from address 5 return to address 5. -/
theorem burst_wrap_spec_wit :
    (intr_adr_next g6 Bte.wrap4)^[burstWrapSize Bte.wrap4] 5 = 5 :=
  (burst_wrap_spec g6 Bte.wrap4 (by decide)).2.2.2.1 5

/-- C9 counterexample: a backing-store port of data width 24 with bus data width
8 passes all three documented checks (size 8 and data width 8 are positive
powers of two, and 24 is a multiple of 8) and is given a perfectly valid
explicit granularity of 8, yet construction still raises, because the width
ratio 3 is not a power of two and `log2_int(3)` at line 57 raises ValueError. -/
theorem init_ratio_cex :
    ((0 < (8 : Int) ∧ (8 : Int).toNat &&& ((8 : Int).toNat - 1) = 0)
      ∧ (0 < (8 : Int) ∧ (8 : Int).toNat &&& ((8 : Int).toNat - 1) = 0)
      ∧ (NativePort.mk 23 24).data_width % (8 : Int).toNat = 0)
    ∧ initOk ⟨23, 24⟩ 8 8 (some 8) = false := by
  decide

set_option maxHeartbeats 2000000 in
/-- C9 (amended): construction fails fast, raising an error, whenever the cache
size or the data width is not a positive power of two or the backing-store data
width is not a multiple of the data width; but those three conditions are not
sufficient for construction to complete.  Precisely, construction completes iff
the three documented checks pass, the DRAM-to-bus width ratio is a power of two
(or zero, for a degenerate zero-width port) — enforced implicitly by the
`log2_int` call computing the bus address width at line 57 — the data width is
one of 8/16/32/64, and an explicit granularity is supplied that is one of
8/16/32/64, at most the data width, with `data_width // granularity` a power of
two and the resulting memory-map address width positive.  In particular, with
the default `granularity = None` line 63 raises `TypeError` unconditionally
(the right-hand side below requires `gran = some g`), so the default-argument
construction never completes. -/
theorem init_ok_iff (p : NativePort) (size dw : Int) (gran : Option Int) :
    initOk p size dw gran = true
    ↔ (0 < size ∧ size.toNat &&& (size.toNat - 1) = 0)
      ∧ (0 < dw ∧ dw.toNat &&& (dw.toNat - 1) = 0)
      ∧ p.data_width % dw.toNat = 0
      ∧ (p.data_width / dw.toNat = 0
          ∨ 2 ^ bit_length (p.data_width / dw.toNat - 1) = p.data_width / dw.toNat)
      ∧ (dw = 8 ∨ dw = 16 ∨ dw = 32 ∨ dw = 64)
      ∧ (∃ g, gran = some g ∧ (g = 8 ∨ g = 16 ∨ g = 32 ∨ g = 64) ∧ g ≤ dw
          ∧ (dw.toNat / g.toNat = 0
              ∨ 2 ^ bit_length (dw.toNat / g.toNat - 1) = dw.toNat / g.toNat)
          ∧ p.addr_width + log2val (p.data_width / dw.toNat)
              + log2val (dw.toNat / g.toNat) ≠ 0) := by
  cases gran with
  | none =>
    unfold initOk writebackCacheInit log2_int
    split_ifs <;> simp_all
  | some g =>
    unfold initOk writebackCacheInit log2_int log2val
    split_ifs <;> simp_all
    all_goals (split_ifs <;> simp_all)
    all_goals (split_ifs <;> simp_all)
    all_goals tauto

/-- C10 witness: in the sample EVICT state `ack` is deasserted. -/
theorem ack_only_in_check_wit :
    (outputs g6 evictSample busRead0 dramIdle).ack = false :=
  ack_only_in_check g6 evictSample busRead0 dramIdle (by decide)

end WritebackCache
